import Mathlib

/-!
Verification of the client-side synchronization core of the-cognisphere
(`src/frontend/src/state/SimulationContext.tsx`), shallowly embedded in Lean.

JavaScript `number` values are modelled as `Rat`; no property proved here
performs arithmetic on payload numbers, so IEEE rounding is irrelevant.
Untyped (`any`) JSON payload positions are modelled by `JsValue`.
-/

namespace Cognisphere

/-- A JSON value, modelling TypeScript `any` positions in the payload types. -/
inductive JsValue where
  | null
  | bool (b : Bool)
  | num (n : Rat)
  | str (s : String)
  | arr (items : List JsValue)
  | obj (fields : List (String × JsValue))

/-- TS `interface Agent` from SimulationContext.tsx. -/
structure Personality where
  openness : Rat
  conscientiousness : Rat
  extraversion : Rat
  agreeableness : Rat
  neuroticism : Rat

structure Agent where
  id : String
  name : String
  generation : Rat
  personality : Personality
  resources : List (String × Rat)
  influence : Rat
  faction_id : Option String
  state : String
  satisfaction : Rat
  trust_relationships : List (String × JsValue)

/-- TS `interface Myth` from SimulationContext.tsx. -/
structure Myth where
  id : String
  creator_id : String
  title : String
  content : String
  theme : String
  characters : List String
  motifs : List String
  tick_created : Rat
  popularity : Rat
  influence : Rat
  version : Rat
  parent_id : Option String

/-- TS `interface Norm` from SimulationContext.tsx. -/
structure Norm where
  id : String
  proposer_id : String
  title : String
  description : String
  norm_type : String
  tick_proposed : Rat
  votes_for : Rat
  votes_against : Rat
  status : String
  enforcement_strength : Rat
  compliance_rate : Rat
  violations : Rat

/-- TS `interface Slang` from SimulationContext.tsx. -/
structure Slang where
  id : String
  creator_id : String
  word : String
  meaning : String
  usage_context : String
  tick_created : Rat
  popularity : Rat
  adoption_rate : Rat
  parent_word : Option String

/-- The `realtime` sub-object of `interface SimulationStatus`. -/
structure RealtimeStats where
  current_tick : Rat
  agent_count : Rat
  faction_count : Rat
  active_events : Rat
  myth_count : Rat
  norm_count : Rat
  trade_count : Rat

/-- TS `interface SimulationStatus` from SimulationContext.tsx. -/
structure SimulationStatus where
  state : String
  current_tick : Rat
  start_time : Option Rat
  end_time : Option Rat
  duration : Option Rat
  world_summary : Option JsValue
  scheduler_stats : Option JsValue
  realtime : Option RealtimeStats

/-- A node of `interface NetworkData`. -/
structure NetworkNode where
  id : String
  name : String
  faction_id : Option String
  influence : Rat
  satisfaction : Rat
  personality : JsValue

/-- An edge of `interface NetworkData`. -/
structure NetworkEdge where
  source : String
  target : String
  trust_level : Rat
  interaction_count : Rat

/-- TS `interface NetworkData` from SimulationContext.tsx. -/
structure NetworkData where
  nodes : List NetworkNode
  edges : List NetworkEdge

/-- The `market_summary` sub-object of `interface EconomicData`. -/
structure MarketSummary where
  name : String
  current_prices : List (String × Rat)
  active_trades : Rat
  completed_trades : Rat
  resources : List (String × JsValue)

/-- TS `interface EconomicData` from SimulationContext.tsx. -/
structure EconomicData where
  market_summary : MarketSummary
  gini_coefficient : Rat
  active_events : Rat
  total_trades : Rat
  resource_production : List (String × Rat)

/-- An entry of `CulturalData.timeline`. -/
structure TimelineEntry where
  tick : Rat
  type : String
  title : String
  theme : Option String
  norm_type : Option String
  creator_id : Option String
  proposer_id : Option String
  popularity : Option Rat
  compliance_rate : Option Rat

/-- TS `interface CulturalData` from SimulationContext.tsx. -/
structure CulturalData where
  myths : List Myth
  norms : List Norm
  slang : List Slang
  timeline : List TimelineEntry

/-- TS `interface SimulationState` from SimulationContext.tsx: the canonical
snapshot held by the `useReducer` store. -/
structure SimulationState where
  status : Option SimulationStatus
  agents : List Agent
  networkData : Option NetworkData
  economicData : Option EconomicData
  culturalData : Option CulturalData
  loading : Bool
  error : Option String
  connected : Bool

/-- TS `type SimulationAction` from SimulationContext.tsx.  The TypeScript union
is closed, but the reducer's `switch` has a `default` arm reachable by any
action object outside the declared union; `UNKNOWN` models such an
unrecognized action type. -/
inductive SimulationAction where
  | SET_LOADING (payload : Bool)
  | SET_ERROR (payload : Option String)
  | SET_CONNECTED (payload : Bool)
  | SET_STATUS (payload : SimulationStatus)
  | SET_AGENTS (payload : List Agent)
  | SET_NETWORK_DATA (payload : NetworkData)
  | SET_ECONOMIC_DATA (payload : EconomicData)
  | SET_CULTURAL_DATA (payload : CulturalData)
  | UPDATE_REALTIME_DATA
  | UNKNOWN

/-- The constant `initialState` from SimulationContext.tsx. -/
def initialState : SimulationState :=
  { status := none
    agents := []
    networkData := none
    economicData := none
    culturalData := none
    loading := false
    error := none
    connected := false }

/-- The function `simulationReducer` from SimulationContext.tsx, lines 171-194.  Each
`SET_*` case returns `{ ...state, field: action.payload }`;
`UPDATE_REALTIME_DATA` returns `{ ...state }` and the `default` arm returns
`state` itself. -/
def simulationReducer (state : SimulationState) (action : SimulationAction) :
    SimulationState :=
  match action with
  | .SET_LOADING payload => { state with loading := payload }
  | .SET_ERROR payload => { state with error := payload }
  | .SET_CONNECTED payload => { state with connected := payload }
  | .SET_STATUS payload => { state with status := some payload }
  | .SET_AGENTS payload => { state with agents := payload }
  | .SET_NETWORK_DATA payload => { state with networkData := some payload }
  | .SET_ECONOMIC_DATA payload => { state with economicData := some payload }
  | .SET_CULTURAL_DATA payload => { state with culturalData := some payload }
  | .UPDATE_REALTIME_DATA =>
      { status := state.status, agents := state.agents
        networkData := state.networkData, economicData := state.economicData
        culturalData := state.culturalData, loading := state.loading
        error := state.error, connected := state.connected }
  | .UNKNOWN => state

/-- One entry of a `Promise.allSettled` result array: either
`{ status: 'fulfilled', value }` or `{ status: 'rejected', reason }`.
The `value` stored here is the response body already projected to `.data`
(the only way `refreshData` ever uses a fulfilled response). -/
inductive Settled (α : Type) where
  | fulfilled (value : α)
  | rejected (reason : String)

/-- Response body of `GET /agents` as used by `refreshData`: the code reads
`agentsResponse.value.data.agents || []`, so the `agents` field may be
absent/null (`none`). -/
structure AgentsResponseData where
  agents : Option (List Agent)

/-- The five settled outcomes of one polling cycle's
`Promise.allSettled([...])` in `refreshData` (lines 268-274), in array
order: `/realtime/status`, `/agents`, `/realtime/network`,
`/realtime/economy`, `/realtime/culture`. -/
structure FetchOutcomes where
  statusResponse : Settled SimulationStatus
  agentsResponse : Settled AgentsResponseData
  networkResponse : Settled NetworkData
  economicResponse : Settled EconomicData
  culturalResponse : Settled CulturalData

/-- The function `refreshData` from SimulationContext.tsx, lines 263-306: dispatch
`SET_ERROR null`, await `Promise.allSettled` of the five fetches, then for
each fulfilled entry dispatch the corresponding `SET_*` action (and, for the
status entry only, `SET_CONNECTED true`).  The surrounding `catch` block
(which would dispatch `SET_ERROR`/`SET_CONNECTED false`) is unreachable:
`Promise.allSettled` never rejects and `dispatch` does not throw, so it is
not modelled. -/
def refreshData (s : SimulationState) (o : FetchOutcomes) : SimulationState :=
  let s := simulationReducer s (.SET_ERROR none)
  let s := match o.statusResponse with
    | .fulfilled d =>
        simulationReducer (simulationReducer s (.SET_STATUS d))
          (.SET_CONNECTED true)
    | .rejected _ => s
  let s := match o.agentsResponse with
    | .fulfilled d => simulationReducer s (.SET_AGENTS (d.agents.getD []))
    | .rejected _ => s
  let s := match o.networkResponse with
    | .fulfilled d => simulationReducer s (.SET_NETWORK_DATA d)
    | .rejected _ => s
  let s := match o.economicResponse with
    | .fulfilled d => simulationReducer s (.SET_ECONOMIC_DATA d)
    | .rejected _ => s
  match o.culturalResponse with
  | .fulfilled d => simulationReducer s (.SET_CULTURAL_DATA d)
  | .rejected _ => s

/-- JavaScript `a || b` restricted to strings: the empty string is the only
falsy string. -/
def jsOrString (a b : String) : String :=
  if a = "" then b else a

/-- A rejected `apiClient` call as observed by the `catch` blocks:
`error.response?.data?.detail` (the remote system's message, when the HTTP
error body carries one) and `error.message`. -/
structure ApiError where
  responseDetail : Option String
  message : String

/-- The expression `error.response?.data?.detail || error.message || fallback` as computed
in the `catch` blocks of `initializeSimulation` and `controlSimulation`.
An absent `detail` (`undefined`) and an empty-string `detail` are both
falsy, hence the `getD ""`. -/
def catchErrorMessage (detail : Option String) (message fallback : String) :
    String :=
  jsOrString (jsOrString (detail.getD "") message) fallback

/-- Response body (`response.data`) of `POST /simulation/control`.  The code
reads only `status` (for truthiness); the remote may additionally supply a
human-readable `detail` message, which the success path never reads. -/
structure ControlResponseData where
  status : Option String
  detail : Option String

/-- Response body (`response.data`) of `POST /simulation/initialize`.  The
code compares `status === 'initialized'`; a supplied `detail` message is
never read on the success path. -/
structure InitializeResponseData where
  status : Option String
  detail : Option String

/-- Settlement of a single awaited `apiClient.post` call: fulfilled with a
response body, or rejected with an axios/JS error (`ApiError`). -/
inductive PostOutcome (α : Type) where
  | fulfilled (data : α)
  | rejected (error : ApiError)

/-- Truthiness of an optional string field, as tested by
`if (response.data.status)`. -/
def jsTruthy (x : Option String) : Bool :=
  match x with
  | none => false
  | some s => s ≠ ""

/-- A user-facing notification: `toast.success(...)` or `toast.error(...)`. -/
inductive Toast where
  | success (message : String)
  | error (message : String)

/-- The call `setInterval(async () => { await refreshData() }, 2000)` fixes the polling
interval in milliseconds, from `startRealTimeUpdates` (line 314). -/
def POLL_INTERVAL : Nat := 2000

/-- The provider's timer bookkeeping: the React state variable
`updateInterval : NodeJS.Timeout | null` plus, to reason about
`setInterval`/`clearInterval`, the set of interval timers currently live in
the host environment, each as `(handle, epoch)` where `epoch` is the time
`setInterval` was called; `nextHandle` is a fresh-handle counter. -/
structure ProviderLifecycle where
  updateInterval : Option Nat
  liveTimers : List (Nat × Nat)
  nextHandle : Nat
deriving DecidableEq

/-- The function `startRealTimeUpdates` from SimulationContext.tsx, lines 309-317:
`if (updateInterval) return`, else create the interval timer and store its
handle via `setUpdateInterval`. -/
def startRealTimeUpdates (p : ProviderLifecycle) (now : Nat) :
    ProviderLifecycle :=
  match p.updateInterval with
  | some _ => p
  | none =>
      { updateInterval := some p.nextHandle
        liveTimers := p.liveTimers ++ [(p.nextHandle, now)]
        nextHandle := p.nextHandle + 1 }

/-- The function `stopRealTimeUpdates` from SimulationContext.tsx, lines 320-325:
`if (updateInterval) { clearInterval(updateInterval); setUpdateInterval(null) }`. -/
def stopRealTimeUpdates (p : ProviderLifecycle) : ProviderLifecycle :=
  match p.updateInterval with
  | some h =>
      { updateInterval := none
        liveTimers := p.liveTimers.filter (fun t => t.1 ≠ h)
        nextHandle := p.nextHandle }
  | none => p

/-- Host semantics of `setInterval(f, POLL_INTERVAL)` called at time
`epoch`: the timer's k-th fire (k = 0, 1, ...) occurs at
`epoch + (k+1) * POLL_INTERVAL`.  Nothing in the provider ever changes a
live timer's schedule; the only operations are `setInterval` and
`clearInterval`. -/
def nthFireTime (epoch k : Nat) : Nat :=
  epoch + (k + 1) * POLL_INTERVAL

/-- The first fire time of a live interval timer with the given `epoch`
that lies strictly after time `now` (with `now ≥ epoch`). -/
def nextFireAfter (epoch now : Nat) : Nat :=
  epoch + ((now - epoch) / POLL_INTERVAL + 1) * POLL_INTERVAL

/-- The observable outcome of one `initializeSimulation` or
`controlSimulation` call: the snapshot and timer state afterwards, the
toasts emitted, how many outbound `POST` calls were issued, whether
`refreshData` was invoked, and the promise's boolean result. -/
structure CommandResult where
  finalState : SimulationState
  lifecycle : ProviderLifecycle
  toasts : List Toast
  networkCalls : Nat
  refreshed : Bool
  returnValue : Bool

/-- The function `controlSimulation` from SimulationContext.tsx, lines 238-260.
Arguments beyond the snapshot and action: `lc` is the provider's timer state
(the function body never touches `updateInterval`); `post` is the settlement
of the single `apiClient.post('/simulation/control', { action })`; `cycle`
holds the fetch outcomes used if the success path runs `refreshData`.
The body: set `loading`/clear `error`; await the POST; if
`response.data.status` is truthy, `toast.success`, `await refreshData()`,
return `true`; otherwise throw `Failed to ${action} simulation`, which the
`catch` turns into `SET_ERROR` + `toast.error` + `false`; a rejected POST is
caught the same way with `detail || message || fallback`; `finally` clears
`loading`. -/
def controlSimulation (s : SimulationState) (lc : ProviderLifecycle)
    (action : String) (post : PostOutcome ControlResponseData)
    (cycle : FetchOutcomes) : CommandResult :=
  let s1 := simulationReducer s (.SET_LOADING true)
  let s2 := simulationReducer s1 (.SET_ERROR none)
  match post with
  | .fulfilled r =>
      if jsTruthy r.status then
        let s3 := refreshData s2 cycle
        { finalState := simulationReducer s3 (.SET_LOADING false)
          lifecycle := lc
          toasts := [Toast.success ("Simulation " ++ action ++ " successful")]
          networkCalls := 1
          refreshed := true
          returnValue := true }
      else
        let msg := catchErrorMessage none
          ("Failed to " ++ action ++ " simulation")
          ("Failed to " ++ action ++ " simulation")
        let s3 := simulationReducer s2 (.SET_ERROR (some msg))
        { finalState := simulationReducer s3 (.SET_LOADING false)
          lifecycle := lc
          toasts := [Toast.error msg]
          networkCalls := 1
          refreshed := false
          returnValue := false }
  | .rejected e =>
      let msg := catchErrorMessage e.responseDetail e.message
        ("Failed to " ++ action ++ " simulation")
      let s3 := simulationReducer s2 (.SET_ERROR (some msg))
      { finalState := simulationReducer s3 (.SET_LOADING false)
        lifecycle := lc
        toasts := [Toast.error msg]
        networkCalls := 1
        refreshed := false
        returnValue := false }

/-- The function `initializeSimulation` from SimulationContext.tsx, lines 213-235.  Like
`controlSimulation` but posting to `/simulation/initialize` with a config
object, testing `response.data.status === 'initialized'`, and with messages
`Simulation initialized successfully` / `Failed to initialize simulation`. -/
def initializeSimulation (s : SimulationState) (lc : ProviderLifecycle)
    (post : PostOutcome InitializeResponseData) (cycle : FetchOutcomes) :
    CommandResult :=
  let s1 := simulationReducer s (.SET_LOADING true)
  let s2 := simulationReducer s1 (.SET_ERROR none)
  match post with
  | .fulfilled r =>
      if r.status = some "initialized" then
        let s3 := refreshData s2 cycle
        { finalState := simulationReducer s3 (.SET_LOADING false)
          lifecycle := lc
          toasts := [Toast.success "Simulation initialized successfully"]
          networkCalls := 1
          refreshed := true
          returnValue := true }
      else
        let msg := catchErrorMessage none "Failed to initialize simulation"
          "Failed to initialize simulation"
        let s3 := simulationReducer s2 (.SET_ERROR (some msg))
        { finalState := simulationReducer s3 (.SET_LOADING false)
          lifecycle := lc
          toasts := [Toast.error msg]
          networkCalls := 1
          refreshed := false
          returnValue := false }
  | .rejected e =>
      let msg := catchErrorMessage e.responseDetail e.message
        "Failed to initialize simulation"
      let s3 := simulationReducer s2 (.SET_ERROR (some msg))
      { finalState := simulationReducer s3 (.SET_LOADING false)
        lifecycle := lc
        toasts := [Toast.error msg]
        networkCalls := 1
        refreshed := false
        returnValue := false }

/-- The provider as a whole, for reasoning about the interleaving of timer
operations with in-flight polling cycles: the committed snapshot, the timer
state, and (in dispatch order) the cycles whose `Promise.allSettled` has
been started but has not yet resolved.  `clearInterval` does not abort an
in-flight fetch, so `pendingCycles` survives `stopRealTimeUpdates`. -/
structure ProviderModel where
  state : SimulationState
  lifecycle : ProviderLifecycle
  pendingCycles : List FetchOutcomes

/-- A polling cycle's fetches are dispatched (by a timer fire, the mount
effect, or a command's out-of-band `refreshData()` call): the cycle joins
the in-flight queue with its eventual outcomes `o`. -/
def beginCycle (o : FetchOutcomes) (m : ProviderModel) : ProviderModel :=
  { m with pendingCycles := m.pendingCycles ++ [o] }

/-- The oldest in-flight cycle's `Promise.allSettled` resolves and
`refreshData`'s dispatches commit to the store.  Nothing in the code guards
this commit on the timer still being live. -/
def settleCycle (m : ProviderModel) : ProviderModel :=
  match m.pendingCycles with
  | [] => m
  | o :: rest =>
      { m with state := refreshData m.state o, pendingCycles := rest }

/-- The function `stopRealTimeUpdates` lifted to the whole provider: it only clears the
timer; the snapshot and any in-flight cycles are untouched. -/
def stopProvider (m : ProviderModel) : ProviderModel :=
  { m with lifecycle := stopRealTimeUpdates m.lifecycle }

/-- The function `startRealTimeUpdates` lifted to the whole provider. -/
def startProvider (m : ProviderModel) (now : Nat) : ProviderModel :=
  { m with lifecycle := startRealTimeUpdates m.lifecycle now }

/-! Concrete data used by witnesses and counterexamples. -/

def samplePersonality : Personality :=
  { openness := 1/2, conscientiousness := 1/2, extraversion := 1/2
    agreeableness := 1/2, neuroticism := 1/2 }

def sampleAgent : Agent :=
  { id := "a1", name := "Ada", generation := 1
    personality := samplePersonality, resources := [("food", 3)]
    influence := 2, faction_id := none, state := "idle", satisfaction := 1
    trust_relationships := [] }

def sampleStatusRunning : SimulationStatus :=
  { state := "running", current_tick := 1, start_time := some 0
    end_time := none, duration := none, world_summary := none
    scheduler_stats := none, realtime := none }

def sampleStatusPaused : SimulationStatus :=
  { state := "paused", current_tick := 2, start_time := some 0
    end_time := none, duration := none, world_summary := none
    scheduler_stats := none, realtime := none }

def sampleNetwork : NetworkData := { nodes := [], edges := [] }

def sampleEconomic : EconomicData :=
  { market_summary :=
      { name := "main", current_prices := [], active_trades := 0
        completed_trades := 0, resources := [] }
    gini_coefficient := 0, active_events := 0, total_trades := 0
    resource_production := [] }

def sampleCultural : CulturalData :=
  { myths := [], norms := [], slang := [], timeline := [] }

/-- The C2 scenario cycle: status and agents succeed, network (and the two
remaining sources) fail. -/
def scenarioCycle : FetchOutcomes :=
  { statusResponse := .fulfilled sampleStatusRunning
    agentsResponse := .fulfilled { agents := some [sampleAgent] }
    networkResponse := .rejected "network error"
    economicResponse := .rejected "network error"
    culturalResponse := .rejected "network error" }

/-- A cycle in which every source's fetch fails. -/
def allRejectedCycle : FetchOutcomes :=
  { statusResponse := .rejected "timeout"
    agentsResponse := .rejected "timeout"
    networkResponse := .rejected "timeout"
    economicResponse := .rejected "timeout"
    culturalResponse := .rejected "timeout" }

/-- A cycle in which every source's fetch succeeds. -/
def allFulfilledCycle : FetchOutcomes :=
  { statusResponse := .fulfilled sampleStatusRunning
    agentsResponse := .fulfilled { agents := some [sampleAgent] }
    networkResponse := .fulfilled sampleNetwork
    economicResponse := .fulfilled sampleEconomic
    culturalResponse := .fulfilled sampleCultural }

/-- A cycle whose agents response fulfills with a body lacking the `agents`
field. -/
def agentsFieldMissingCycle : FetchOutcomes :=
  { statusResponse := .rejected "timeout"
    agentsResponse := .fulfilled { agents := none }
    networkResponse := .rejected "timeout"
    economicResponse := .rejected "timeout"
    culturalResponse := .rejected "timeout" }

def idleLifecycle : ProviderLifecycle :=
  { updateInterval := none, liveTimers := [], nextHandle := 0 }

/-- The lifecycle after `startRealTimeUpdates` at t = 0. -/
def runningLifecycle : ProviderLifecycle := startRealTimeUpdates idleLifecycle 0

/-- A freshly mounted provider that called `startRealTimeUpdates` at
t = 0: initial snapshot, live timer, no cycle in flight yet. -/
def startedProvider : ProviderModel :=
  startProvider { state := initialState, lifecycle := idleLifecycle
                  pendingCycles := [] } 0

/-- A control response whose `status` field is truthy. -/
def okControlResponse : ControlResponseData :=
  { status := some "paused", detail := none }

/-- A control response that is truthy AND carries a remote human-readable
message, which the success path never reads. -/
def okControlWithDetail : ControlResponseData :=
  { status := some "ok", detail := some "Simulation resumed at tick 42" }

/-! Theorems, one per claim of the specification. -/

/-- C9: reducer frame condition.  For every state and action,
`simulationReducer` changes at most the single field targeted by the
action's type, leaving every other field equal to the input's; for
`UPDATE_REALTIME_DATA` and the `default` arm, every field of the output
equals the corresponding field of the input (the former returns a fresh
object `{ ...state }`, the latter returns `state` itself). -/
theorem simulationReducer_frame (s : SimulationState) :
    (∀ b, simulationReducer s (.SET_LOADING b) = { s with loading := b })
    ∧ (∀ e, simulationReducer s (.SET_ERROR e) = { s with error := e })
    ∧ (∀ b, simulationReducer s (.SET_CONNECTED b) = { s with connected := b })
    ∧ (∀ d, simulationReducer s (.SET_STATUS d) = { s with status := some d })
    ∧ (∀ d, simulationReducer s (.SET_AGENTS d) = { s with agents := d })
    ∧ (∀ d, simulationReducer s (.SET_NETWORK_DATA d) =
        { s with networkData := some d })
    ∧ (∀ d, simulationReducer s (.SET_ECONOMIC_DATA d) =
        { s with economicData := some d })
    ∧ (∀ d, simulationReducer s (.SET_CULTURAL_DATA d) =
        { s with culturalData := some d })
    ∧ simulationReducer s .UPDATE_REALTIME_DATA = s
    ∧ simulationReducer s .UNKNOWN = s := by
  exact ⟨fun _ => rfl, fun _ => rfl, fun _ => rfl, fun _ => rfl, fun _ => rfl,
    fun _ => rfl, fun _ => rfl, fun _ => rfl, rfl, rfl⟩

/-- C1 counterexample: the reducer has no cycle ids and no stale-write
rejection.  Committing the cycle-2 status payload (`paused`, tick 2) and
then the older cycle-1 payload (`running`, tick 1) does NOT leave the slot
unchanged: the slot reverts to the older payload. -/
theorem stale_status_write_accepted :
    (simulationReducer initialState
        (.SET_STATUS sampleStatusPaused)).status = some sampleStatusPaused
    ∧ (simulationReducer
        (simulationReducer initialState (.SET_STATUS sampleStatusPaused))
        (.SET_STATUS sampleStatusRunning)).status = some sampleStatusRunning
    ∧ sampleStatusRunning.state ≠ sampleStatusPaused.state := by
  refine ⟨rfl, rfl, ?_⟩
  intro h
  simp [sampleStatusRunning, sampleStatusPaused] at h

/-- C1 amended: the store is last-write-wins.  The reducer commits every
incoming result's payload unconditionally — there is no cycle-id (or any
other staleness) check, so a slot can revert to an older cycle's value and
its "stored cycle id" does not exist, let alone stay monotone. -/
theorem reducer_last_write_wins (s : SimulationState)
    (d1 d2 : SimulationStatus) (a : List Agent) (n : NetworkData)
    (e : EconomicData) (c : CulturalData) :
    (simulationReducer s (.SET_STATUS d1)).status = some d1
    ∧ (simulationReducer (simulationReducer s (.SET_STATUS d2))
        (.SET_STATUS d1)).status = some d1
    ∧ (simulationReducer s (.SET_AGENTS a)).agents = a
    ∧ (simulationReducer s (.SET_NETWORK_DATA n)).networkData = some n
    ∧ (simulationReducer s (.SET_ECONOMIC_DATA e)).economicData = some e
    ∧ (simulationReducer s (.SET_CULTURAL_DATA c)).culturalData = some c := by
  exact ⟨rfl, rfl, rfl, rfl, rfl, rfl⟩

/-- C2: settle-all failure isolation.  `refreshData` always completes (it is
a total function of the five settled outcomes), and per slot: a rejected
fetch leaves that slot exactly as it was, while each fulfilled fetch commits
its payload — independently of how every other source settled. -/
theorem refreshData_settle_all (s : SimulationState) (o : FetchOutcomes) :
    (∀ r, o.statusResponse = .rejected r → (refreshData s o).status = s.status)
    ∧ (∀ d, o.statusResponse = .fulfilled d →
        (refreshData s o).status = some d)
    ∧ (∀ r, o.agentsResponse = .rejected r →
        (refreshData s o).agents = s.agents)
    ∧ (∀ d, o.agentsResponse = .fulfilled d →
        (refreshData s o).agents = d.agents.getD [])
    ∧ (∀ r, o.networkResponse = .rejected r →
        (refreshData s o).networkData = s.networkData)
    ∧ (∀ d, o.networkResponse = .fulfilled d →
        (refreshData s o).networkData = some d)
    ∧ (∀ r, o.economicResponse = .rejected r →
        (refreshData s o).economicData = s.economicData)
    ∧ (∀ d, o.economicResponse = .fulfilled d →
        (refreshData s o).economicData = some d)
    ∧ (∀ r, o.culturalResponse = .rejected r →
        (refreshData s o).culturalData = s.culturalData)
    ∧ (∀ d, o.culturalResponse = .fulfilled d →
        (refreshData s o).culturalData = some d) := by
  obtain ⟨st, ag, nw, ec, cu⟩ := o
  cases st <;> cases ag <;> cases nw <;> cases ec <;> cases cu <;>
    refine ⟨?_, ?_, ?_, ?_, ?_, ?_, ?_, ?_, ?_, ?_⟩ <;> intro x hx <;>
    first
      | exact Settled.noConfusion hx
      | (injection hx with h; cases h; rfl)

/-- C2 witness: the scenario cycle (status and agents succeed, network
fails) applied to the initial snapshot: the network slot retains its initial
empty value, status and agents are committed. -/
theorem refreshData_settle_all_witness :
    (refreshData initialState scenarioCycle).networkData
        = initialState.networkData
    ∧ (refreshData initialState scenarioCycle).status
        = some sampleStatusRunning
    ∧ (refreshData initialState scenarioCycle).agents = [sampleAgent] :=
  ⟨(refreshData_settle_all initialState scenarioCycle).2.2.2.2.1
      "network error" rfl,
    (refreshData_settle_all initialState scenarioCycle).2.1
      sampleStatusRunning rfl,
    (refreshData_settle_all initialState scenarioCycle).2.2.2.1
      { agents := some [sampleAgent] } rfl⟩

/-- C3 counterexample: a cycle whose status fetch fails does NOT leave
`connected` false.  Starting from a snapshot with `connected = true` (as
after any earlier successful cycle), a cycle in which every fetch — status
included — fails leaves `connected = true`: the `SET_CONNECTED false`
dispatch lives in a `catch` block that `Promise.allSettled` never
triggers. -/
theorem connected_not_reset_on_status_failure :
    allRejectedCycle.statusResponse = Settled.rejected "timeout"
    ∧ ({ initialState with connected := true } : SimulationState).connected
        = true
    ∧ (refreshData { initialState with connected := true }
        allRejectedCycle).connected = true := by
  exact ⟨rfl, rfl, rfl⟩

/-- C3 amended: `connected` is a one-way latch per cycle.  A cycle whose
status fetch succeeds sets `connected` to true; a cycle whose status fetch
fails leaves `connected` exactly as it was (it is never reset to false by a
completed cycle). -/
theorem refreshData_connected_latch (s : SimulationState) (o : FetchOutcomes) :
    (∀ d, o.statusResponse = .fulfilled d → (refreshData s o).connected = true)
    ∧ (∀ r, o.statusResponse = .rejected r →
        (refreshData s o).connected = s.connected) := by
  obtain ⟨st, ag, nw, ec, cu⟩ := o
  cases st <;> cases ag <;> cases nw <;> cases ec <;> cases cu <;>
    refine ⟨?_, ?_⟩ <;> intro x hx <;>
    first
      | exact Settled.noConfusion hx
      | (injection hx with h; cases h; rfl)

/-- C3 amended, witness: a successful status fetch sets `connected = true`;
a failed one leaves the initial `false` in place. -/
theorem refreshData_connected_latch_witness :
    (refreshData initialState allFulfilledCycle).connected = true
    ∧ (refreshData initialState allRejectedCycle).connected
        = initialState.connected :=
  ⟨(refreshData_connected_latch initialState allFulfilledCycle).1
      sampleStatusRunning rfl,
    (refreshData_connected_latch initialState allRejectedCycle).2
      "timeout" rfl⟩

/-- C10: when the agents read endpoint fulfills, the committed agents slot
is `body.agents || []`; in particular a fulfilled body whose `agents` field
is absent/null commits the empty list, and the slot is a list after every
successful agents fetch. -/
theorem refreshData_agents_default (s : SimulationState) (o : FetchOutcomes)
    (d : AgentsResponseData) (hf : o.agentsResponse = .fulfilled d) :
    (refreshData s o).agents = d.agents.getD []
    ∧ (d.agents = none → (refreshData s o).agents = []) := by
  obtain ⟨st, ag, nw, ec, cu⟩ := o
  cases st <;> cases ag <;> cases nw <;> cases ec <;> cases cu <;>
    first
      | exact Settled.noConfusion hf
      | (injection hf with h; cases h;
          exact ⟨rfl, fun hn => by simp [refreshData, simulationReducer, hn]⟩)

/-- C10 witness: a cycle whose agents response fulfills without an `agents`
field commits the empty list. -/
theorem refreshData_agents_default_witness :
    (refreshData initialState agentsFieldMissingCycle).agents = [] :=
  (refreshData_agents_default initialState agentsFieldMissingCycle
    { agents := none } rfl).2 rfl

/-- C4 counterexample: there is no single-flight guard.  With a command
already pending (`loading = true`, the flag the code raises for the whole
duration of every dispatch), a second `controlSimulation` call does NOT
return a busy error and does NOT skip the outbound call: it issues its own
POST (`networkCalls = 1`, not `0`) and settles normally with a success
toast. -/
theorem dispatch_while_pending_not_rejected :
    ({ initialState with loading := true } : SimulationState).loading = true
    ∧ (controlSimulation { initialState with loading := true } idleLifecycle
        "pause" (.fulfilled okControlResponse) allRejectedCycle).networkCalls
      = 1
    ∧ (controlSimulation { initialState with loading := true } idleLifecycle
        "pause" (.fulfilled okControlResponse) allRejectedCycle).returnValue
      = true
    ∧ (controlSimulation { initialState with loading := true } idleLifecycle
        "pause" (.fulfilled okControlResponse) allRejectedCycle).toasts
      = [Toast.success "Simulation pause successful"] := by
  exact ⟨rfl, rfl, rfl, rfl⟩

/-- C4 amended: `controlSimulation` has no pending-command check.  Every
call issues exactly one outbound POST, and its entire observable outcome is
independent of whether a command is already in flight (the `loading` flag):
the call is neither rejected as busy nor queued nor retried. -/
theorem controlSimulation_no_busy_guard (s : SimulationState)
    (lc : ProviderLifecycle) (a : String)
    (post : PostOutcome ControlResponseData) (cycle : FetchOutcomes) :
    (controlSimulation s lc a post cycle).networkCalls = 1
    ∧ controlSimulation { s with loading := true } lc a post cycle
        = controlSimulation s lc a post cycle := by
  constructor
  · cases post with
    | fulfilled r =>
        by_cases h : jsTruthy r.status <;> simp [controlSimulation, h]
    | rejected e => rfl
  · rfl

/-- C5 counterexample: a fetch dispatched before `stop()` and resolving
afterward DOES mutate the snapshot.  Start polling at t = 0, begin a cycle,
call `stopRealTimeUpdates` (timer cleared), then let the in-flight cycle
settle: `connected` flips from false to true, so the committed state is not
identical before and after the late arrival. -/
theorem late_fetch_mutates_after_stop :
    (stopProvider (beginCycle allFulfilledCycle
        startedProvider)).lifecycle.updateInterval = none
    ∧ (stopProvider (beginCycle allFulfilledCycle
        startedProvider)).state.connected = false
    ∧ (settleCycle (stopProvider (beginCycle allFulfilledCycle
        startedProvider))).state.connected = true := by
  exact ⟨rfl, rfl, rfl⟩

/-- Helper: `stopRealTimeUpdates` always leaves `updateInterval` null. -/
theorem stopRealTimeUpdates_clears (p : ProviderLifecycle) :
    (stopRealTimeUpdates p).updateInterval = none := by
  unfold stopRealTimeUpdates
  cases h : p.updateInterval
  · exact h
  · rfl

/-- C5 amended: `stopRealTimeUpdates` only clears the timer — no further
cycles will be scheduled — but it neither cancels in-flight cycles nor
installs any generation guard: a cycle pending when `stop()` is called
still commits its results through `refreshData` when it settles. -/
theorem stop_not_neutralizing (m : ProviderModel) (o : FetchOutcomes)
    (rest : List FetchOutcomes) (h : m.pendingCycles = o :: rest) :
    (stopProvider m).lifecycle.updateInterval = none
    ∧ (stopProvider m).pendingCycles = m.pendingCycles
    ∧ (stopProvider m).state = m.state
    ∧ (settleCycle (stopProvider m)).state = refreshData m.state o := by
  refine ⟨stopRealTimeUpdates_clears m.lifecycle, rfl, rfl, ?_⟩
  simp [settleCycle, stopProvider, h]

/-- C5 amended, witness: with exactly one cycle in flight at `stop()`, its
settlement commits `refreshData` of its outcomes. -/
theorem stop_not_neutralizing_witness :
    (settleCycle (stopProvider (beginCycle allFulfilledCycle
        startedProvider))).state
      = refreshData initialState allFulfilledCycle :=
  (stop_not_neutralizing (beginCycle allFulfilledCycle startedProvider)
    allFulfilledCycle [] rfl).2.2.2

/-- C6 counterexample: with polling started at t = 0 (interval 2000) and a
command acknowledged at t = 500 triggering an out-of-band refresh, the
timer state is completely unchanged by the command, so the next regularly
scheduled cycle still fires at t = 2000 — not t = 2500 — i.e. within one
interval (1500 < 2000) of the triggered cycle. -/
theorem ondemand_refresh_no_reschedule_cex :
    (controlSimulation initialState runningLifecycle "start"
        (.fulfilled okControlResponse) allFulfilledCycle).refreshed = true
    ∧ (controlSimulation initialState runningLifecycle "start"
        (.fulfilled okControlResponse) allFulfilledCycle).lifecycle
      = runningLifecycle
    ∧ runningLifecycle.liveTimers = [(0, 0)]
    ∧ nextFireAfter 0 500 = 2000
    ∧ nextFireAfter 0 500 ≠ 2500
    ∧ nextFireAfter 0 500 - 500 < POLL_INTERVAL := by
  refine ⟨rfl, rfl, rfl, rfl, by decide, by decide⟩

/-- C6 amended: a command-triggered out-of-band refresh never touches the
timer: `controlSimulation` returns the timer state unchanged in every case,
so the next regular tick stays on the original `setInterval` grid
(`nextFireAfter epoch now`); in particular after a trigger at t = 500 with
epoch 0 the next scheduled cycle is still at t = 2000, within one interval
of the triggered one. -/
theorem ondemand_refresh_keeps_schedule (s : SimulationState)
    (lc : ProviderLifecycle) (a : String)
    (post : PostOutcome ControlResponseData) (cycle : FetchOutcomes) :
    (controlSimulation s lc a post cycle).lifecycle = lc
    ∧ nextFireAfter 0 500 = 2000 := by
  constructor
  · cases post with
    | fulfilled r =>
        by_cases h : jsTruthy r.status <;> simp [controlSimulation, h]
    | rejected e => rfl
  · rfl

/-- C7 counterexample: a success settlement does NOT use the remote
system's message even when one is supplied.  The control response carries
`detail: "Simulation resumed at tick 42"`, yet the notification is the
generic `Simulation resume successful`. -/
theorem success_toast_ignores_remote_message :
    (controlSimulation initialState idleLifecycle "resume"
        (.fulfilled okControlWithDetail) allRejectedCycle).toasts
      = [Toast.success "Simulation resume successful"]
    ∧ okControlWithDetail.detail = some "Simulation resumed at tick 42"
    ∧ "Simulation resume successful" ≠ "Simulation resumed at tick 42" := by
  refine ⟨rfl, rfl, by decide⟩

/-- C7 amended: for every dispatched command, an immediate out-of-band
refresh of all sources happens iff the command settles successfully, and
each settlement emits exactly one notification; a FAILURE notification uses
the remote system's `detail` message when supplied (else the error's own
message, else a generic fallback), while a SUCCESS notification always uses
the generic message, ignoring any remote-supplied one. -/
theorem command_settlement_behavior (s : SimulationState)
    (lc : ProviderLifecycle) (a : String)
    (post : PostOutcome ControlResponseData)
    (ipost : PostOutcome InitializeResponseData) (cycle : FetchOutcomes) :
    ((controlSimulation s lc a post cycle).refreshed
        = (controlSimulation s lc a post cycle).returnValue)
    ∧ (controlSimulation s lc a post cycle).toasts.length = 1
    ∧ (∀ e, post = .rejected e →
        (controlSimulation s lc a post cycle).toasts
          = [Toast.error (catchErrorMessage e.responseDetail e.message
              ("Failed to " ++ a ++ " simulation"))])
    ∧ (∀ d, post = .fulfilled d → jsTruthy d.status = true →
        (controlSimulation s lc a post cycle).toasts
            = [Toast.success ("Simulation " ++ a ++ " successful")]
          ∧ (controlSimulation s lc a post cycle).refreshed = true)
    ∧ (∀ d, post = .fulfilled d → jsTruthy d.status = false →
        (controlSimulation s lc a post cycle).refreshed = false)
    ∧ ((initializeSimulation s lc ipost cycle).refreshed
        = (initializeSimulation s lc ipost cycle).returnValue)
    ∧ (initializeSimulation s lc ipost cycle).toasts.length = 1 := by
  refine ⟨?_, ?_, ?_, ?_, ?_, ?_, ?_⟩
  · cases post with
    | fulfilled r =>
        by_cases h : jsTruthy r.status <;> simp [controlSimulation, h]
    | rejected e => rfl
  · cases post with
    | fulfilled r =>
        by_cases h : jsTruthy r.status <;> simp [controlSimulation, h]
    | rejected e => rfl
  · intro e he
    subst he
    rfl
  · intro d hd ht
    subst hd
    exact ⟨by simp [controlSimulation, ht], by simp [controlSimulation, ht]⟩
  · intro d hd ht
    subst hd
    simp [controlSimulation, ht]
  · cases ipost with
    | fulfilled r =>
        by_cases h : r.status = some "initialized" <;>
          simp [initializeSimulation, h]
    | rejected e => rfl
  · cases ipost with
    | fulfilled r =>
        by_cases h : r.status = some "initialized" <;>
          simp [initializeSimulation, h]
    | rejected e => rfl

/-- C7 amended, witness: a rejected POST whose HTTP error body carries
`detail` surfaces exactly that message in the failure toast. -/
theorem command_settlement_behavior_witness :
    (controlSimulation initialState idleLifecycle "pause"
        (.rejected { responseDetail := some "Simulation is not running"
                     message := "Request failed with status code 400" })
        allRejectedCycle).toasts
      = [Toast.error "Simulation is not running"] :=
  (command_settlement_behavior initialState idleLifecycle "pause"
    (.rejected { responseDetail := some "Simulation is not running"
                 message := "Request failed with status code 400" })
    (.fulfilled { status := some "initialized", detail := none })
    allRejectedCycle).2.2.1
    { responseDetail := some "Simulation is not running"
      message := "Request failed with status code 400" } rfl

/-- C8: lifecycle misuse is absorbed.  `startRealTimeUpdates` while a timer
is live is the identity (no second timer is ever created); double start is
idempotent; `stopRealTimeUpdates` with no timer is the identity; double
stop is idempotent.  Both functions are total — neither path can raise. -/
theorem lifecycle_misuse_absorbed (p : ProviderLifecycle) (t1 t2 : Nat) :
    (p.updateInterval.isSome = true → startRealTimeUpdates p t1 = p)
    ∧ (p.updateInterval = none → stopRealTimeUpdates p = p)
    ∧ startRealTimeUpdates (startRealTimeUpdates p t1) t2
        = startRealTimeUpdates p t1
    ∧ (startRealTimeUpdates (startRealTimeUpdates p t1) t2).liveTimers
        = (startRealTimeUpdates p t1).liveTimers
    ∧ stopRealTimeUpdates (stopRealTimeUpdates p) = stopRealTimeUpdates p := by
  obtain ⟨ui, lt, nh⟩ := p
  cases ui <;>
    simp [startRealTimeUpdates, stopRealTimeUpdates, Option.isSome]

/-- C8 witness: starting while already running (timer live since t = 0)
changes nothing; stopping while idle changes nothing. -/
theorem lifecycle_misuse_absorbed_witness :
    startRealTimeUpdates runningLifecycle 500 = runningLifecycle
    ∧ stopRealTimeUpdates idleLifecycle = idleLifecycle :=
  ⟨(lifecycle_misuse_absorbed runningLifecycle 500 0).1 rfl,
    (lifecycle_misuse_absorbed idleLifecycle 500 0).2.1 rfl⟩

end Cognisphere
